import Mathlib

/-!
Shallow embedding of the todo-list client in `src/src/App.jsx`.

The component's React state is modelled as an explicit record `AppState`;
each asynchronous handler becomes a function from the state and the
outcome(s) of its network call(s) to the next state, paired with the list
of HTTP requests the handler issued.  `fetch` resolves with a response
even on a non-success HTTP status and rejects only on transport failure,
so outcomes distinguish `success`, `httpError` (resolved, `!res.ok`) and
`netError` (rejected with a message).
-/

/-- A todo item: `{id, title, completed}` as served by the remote API. -/
structure Todo where
  id : Nat
  title : String
  completed : Bool
deriving DecidableEq, Repr

/-- The `App` component's state hooks: `todos`, `newTitle`, `filter`,
`loading`, `error`. -/
structure AppState where
  todos : List Todo
  newTitle : String
  filter : String
  loading : Bool
  error : String
deriving DecidableEq, Repr

/-- Outcome of one `fetch` call: `success` carries the parsed body of an
`ok` response, `httpError` is a resolved response with `!res.ok`, and
`netError msg` is a rejected promise whose error message is `msg`. -/
inductive FetchResult (α : Type) where
  | success (data : α)
  | httpError
  | netError (msg : String)
deriving DecidableEq, Repr

/-- `true` for the outcomes that make the `try` block throw: a non-ok
response (the code throws after checking `res.ok`) or a rejected fetch. -/
def FetchResult.isFailure {α : Type} : FetchResult α → Bool
  | .success _ => false
  | _ => true

/-- `true` only for a rejected fetch. A resolved response, ok or not,
is not a rejection. -/
def FetchResult.isNetError {α : Type} : FetchResult α → Bool
  | .netError _ => true
  | _ => false

/-- An HTTP request issued by a handler, with the payload that matters. -/
inductive Request where
  | list
  | create (title : String)
  | patchCompleted (id : Nat) (completed : Bool)
  | patchTitle (id : Nat) (title : String)
  | deleteOne (id : Nat)
deriving DecidableEq, Repr

/-- `fetchTodos`: sets `loading`, clears `error`, GETs `/api/todos`;
replaces `todos` on success, sets the error message on failure, and
clears `loading` in `finally`. -/
def fetchTodos (s : AppState) (r : FetchResult (List Todo)) :
    AppState × List Request :=
  let s1 := { s with loading := true, error := "" }
  match r with
  | .success data => ({ s1 with todos := data, loading := false }, [.list])
  | .httpError =>
      ({ s1 with error := "Failed to load todos", loading := false }, [.list])
  | .netError m => ({ s1 with error := m, loading := false }, [.list])

/-- JavaScript `String.prototype.trim`: the string with leading and
trailing whitespace removed.  (Lean's own `String.trim` is built from
substring primitives that do not reduce definitionally, so the same
function is written here by structural recursion over the character
list.) -/
def jsTrim (s : String) : String :=
  ⟨((s.data.dropWhile Char.isWhitespace).reverse.dropWhile
      Char.isWhitespace).reverse⟩

/-- `addTodo`: returns at once when the trimmed draft is empty; otherwise
sets `loading`, clears `error`, POSTs the trimmed title, prepends the
created item and clears the draft on success, sets the error message on
failure, and clears `loading` in `finally`. -/
def addTodo (s : AppState) (r : FetchResult Todo) : AppState × List Request :=
  if jsTrim s.newTitle = "" then (s, [])
  else
    let s1 := { s with loading := true, error := "" }
    let req := Request.create (jsTrim s.newTitle)
    match r with
    | .success created =>
        ({ s1 with todos := created :: s.todos, newTitle := "",
                   loading := false }, [req])
    | .httpError =>
        ({ s1 with error := "Failed to add todo", loading := false }, [req])
    | .netError m => ({ s1 with error := m, loading := false }, [req])

/-- The optimistic update of `toggleTodo`:
`prev.map(t => t.id === id ? { ...t, completed } : t)`. -/
def toggleOptimistic (id : Nat) (completed : Bool) (todos : List Todo) :
    List Todo :=
  todos.map fun t => if t.id = id then { t with completed := completed } else t

/-- The revert of `toggleTodo`'s catch block:
`prev.map(t => t.id === id ? { ...t, completed: !completed } : t)`. -/
def toggleRevert (id : Nat) (completed : Bool) (todos : List Todo) :
    List Todo :=
  todos.map fun t => if t.id = id then { t with completed := !completed } else t

/-- `toggleTodo(id, completed)`: clears `error`, applies the optimistic
map, PATCHes `{completed}`; on failure sets the error message and applies
the revert map over the (already optimistically updated) list. -/
def toggleTodo (id : Nat) (completed : Bool) (s : AppState)
    (r : FetchResult Unit) : AppState × List Request :=
  let opt := toggleOptimistic id completed s.todos
  let req := Request.patchCompleted id completed
  match r with
  | .success _ => ({ s with error := "", todos := opt }, [req])
  | .httpError =>
      ({ s with error := "Failed to update todo",
                todos := toggleRevert id completed opt }, [req])
  | .netError m =>
      ({ s with error := m, todos := toggleRevert id completed opt }, [req])

/-- The optimistic update of `renameTodo`:
`prev.map(t => t.id === id ? { ...t, title: title.trim() } : t)`. -/
def renameOptimistic (id : Nat) (title : String) (todos : List Todo) :
    List Todo :=
  todos.map fun t => if t.id = id then { t with title := jsTrim title } else t

/-- `renameTodo(id, title)`: returns at once when the trimmed title is
empty; otherwise clears `error`, applies the optimistic map, PATCHes
`{title: title.trim()}`; on failure sets the error message and runs
`fetchTodos` (whose outcome is `loadR`). -/
def renameTodo (id : Nat) (title : String) (s : AppState)
    (r : FetchResult Unit) (loadR : FetchResult (List Todo)) :
    AppState × List Request :=
  if jsTrim title = "" then (s, [])
  else
    let opt := { s with error := "", todos := renameOptimistic id title s.todos }
    let req := Request.patchTitle id (jsTrim title)
    match r with
    | .success _ => (opt, [req])
    | .httpError =>
        let after := fetchTodos { opt with error := "Failed to rename todo" } loadR
        (after.1, req :: after.2)
    | .netError m =>
        let after := fetchTodos { opt with error := m } loadR
        (after.1, req :: after.2)

/-- The optimistic removal of `deleteTodo`:
`prev.filter(t => t.id !== id)`. -/
def deleteOptimistic (id : Nat) (todos : List Todo) : List Todo :=
  todos.filter fun t => t.id != id

/-- `deleteTodo(id)`: clears `error`, removes the item(s) with the id,
DELETEs `/api/todos/{id}`; on failure sets the error message and runs
`fetchTodos` (whose outcome is `loadR`). -/
def deleteTodo (id : Nat) (s : AppState) (r : FetchResult Unit)
    (loadR : FetchResult (List Todo)) : AppState × List Request :=
  let opt := { s with error := "", todos := deleteOptimistic id s.todos }
  let req := Request.deleteOne id
  match r with
  | .success _ => (opt, [req])
  | .httpError =>
      let after := fetchTodos { opt with error := "Failed to delete todo" } loadR
      (after.1, req :: after.2)
  | .netError m =>
      let after := fetchTodos { opt with error := m } loadR
      (after.1, req :: after.2)

/-- `clearCompleted`: returns at once when no item is completed; otherwise
clears `error`, removes the completed items, issues one DELETE per removed
id via `Promise.all`.  `fetch` rejects only on transport failure, and the
code checks no `res.ok` here, so the catch (set the generic message,
restore the snapshot) runs exactly when some delete's outcome is a
rejection; resolved non-ok responses pass silently. -/
def clearCompleted (s : AppState) (results : Nat → FetchResult Unit) :
    AppState × List Request :=
  let completedTodos := s.todos.filter fun t => t.completed
  if completedTodos.length = 0 then (s, [])
  else
    let toDelete := completedTodos.map fun t => t.id
    let reqs := toDelete.map Request.deleteOne
    if toDelete.any fun i => (results i).isNetError then
      ({ s with error := "Failed to clear completed" }, reqs)
    else
      ({ s with error := "", todos := s.todos.filter fun t => !t.completed },
       reqs)

/-- The derived `filtered` view:
`filter === 'active'` keeps the not-completed items, `filter ===
'completed'` keeps the completed ones, anything else returns `todos`. -/
def filteredView (filter : String) (todos : List Todo) : List Todo :=
  if filter = "active" then todos.filter fun t => !t.completed
  else if filter = "completed" then todos.filter fun t => t.completed
  else todos

/-- The derived `remaining` count:
`todos.filter(t => !t.completed).length`. -/
def remaining (todos : List Todo) : Nat :=
  (todos.filter fun t => !t.completed).length

/-- `TodoRow`'s local state: the `editing` flag and the draft `title`. -/
structure RowState where
  editing : Bool
  title : String
deriving DecidableEq, Repr

/-- `TodoRow.handleKey`: on Enter, calls `onRename(title)` with the raw
draft and leaves edit mode; on Escape, resets the draft to the item's
canonical title and leaves edit mode; other keys do nothing.  The second
component is the argument passed to `onRename`, when it is called. -/
def handleKey (key : String) (todoTitle : String) (st : RowState) :
    RowState × Option String :=
  if key = "Enter" then ({ st with editing := false }, some st.title)
  else if key = "Escape" then (⟨false, todoTitle⟩, none)
  else (st, none)

/-- The spec's filter predicate, stated from its words: active = not
completed; completed = completed; all = identity (every item kept). -/
def specFilterPred (filter : String) (t : Todo) : Bool :=
  if filter = "active" then !t.completed
  else if filter = "completed" then t.completed
  else true

/-- The spec's remaining count, stated from its words: the number of
items where completed is false. -/
def specRemainingCount (todos : List Todo) : Nat :=
  todos.countP fun t => !t.completed

/-- C6: for every Collection and each of the three filter values, the
derived view equals the Collection filtered by the spec's predicate, and
`remaining` counts the items with `completed = false`; in particular, for
a Collection of one completed and one active item under
`filter = "active"`, the view is exactly the active item and the count
is 1. -/
theorem filteredView_remaining_spec :
    (∀ todos : List Todo,
      filteredView "all" todos = todos.filter (specFilterPred "all") ∧
      filteredView "active" todos = todos.filter (specFilterPred "active") ∧
      filteredView "completed" todos
        = todos.filter (specFilterPred "completed") ∧
      remaining todos = specRemainingCount todos) ∧
    filteredView "active" [⟨1, "a", true⟩, ⟨2, "b", false⟩]
      = [⟨2, "b", false⟩] ∧
    remaining [⟨1, "a", true⟩, ⟨2, "b", false⟩] = 1 := by
  refine ⟨fun todos => ⟨?_, ?_, ?_, ?_⟩, by decide, by decide⟩
  · simp only [filteredView, if_neg (by decide : ¬("all" : String) = "active"),
      if_neg (by decide : ¬("all" : String) = "completed")]
    exact (List.filter_eq_self.mpr fun a _ => by simp [specFilterPred]).symm
  · simp only [filteredView, if_pos rfl]
    exact List.filter_congr fun a _ => by simp [specFilterPred]
  · simp only [filteredView, if_neg (by decide : ¬("completed" : String) = "active"),
      if_pos rfl]
    exact List.filter_congr fun a _ => by simp [specFilterPred]
  · simp [remaining, specRemainingCount, List.countP_eq_length_filter]

/-- C7: a Create whose title is whitespace-only (empty after trimming)
issues no request and returns the state unchanged — Collection, loading
flag and error message included. -/
theorem addTodo_whitespace_noop (s : AppState) (r : FetchResult Todo)
    (h : jsTrim s.newTitle = "") : addTodo s r = (s, []) := by
  simp [addTodo, h]

/-- Witness for C7 at a concrete whitespace-only draft. -/
theorem addTodo_whitespace_noop_witness :
    addTodo ⟨[⟨1, "a", false⟩], "   ", "all", false, "old"⟩ .httpError
      = (⟨[⟨1, "a", false⟩], "   ", "all", false, "old"⟩, []) :=
  addTodo_whitespace_noop _ _ (by decide)

/-- C8: ClearCompleted on a Collection with no completed item issues no
request and returns the state unchanged — Collection and error message
included. -/
theorem clearCompleted_none_completed_noop (s : AppState)
    (results : Nat → FetchResult Unit)
    (h : ∀ t ∈ s.todos, t.completed = false) :
    clearCompleted s results = (s, []) := by
  have hnil : s.todos.filter (fun t => t.completed) = [] := by
    rw [List.filter_eq_nil_iff]
    intro t ht
    simp [h t ht]
  simp [clearCompleted, hnil]

/-- Witness for C8 at a concrete all-active Collection. -/
theorem clearCompleted_none_completed_noop_witness :
    clearCompleted ⟨[⟨1, "a", false⟩, ⟨2, "b", false⟩], "", "all", false, "e"⟩
        (fun _ => .netError "boom")
      = (⟨[⟨1, "a", false⟩, ⟨2, "b", false⟩], "", "all", false, "e"⟩, []) :=
  clearCompleted_none_completed_noop _ _ (by decide)

/-- C9: a failed Load (non-ok response or rejected fetch) leaves the
Collection — and the draft and filter — exactly as before; only the error
message and the loading flag change. -/
theorem fetchTodos_failure_preserves_todos (s : AppState)
    (r : FetchResult (List Todo)) (h : r.isFailure = true) :
    (fetchTodos s r).1.todos = s.todos ∧
    (fetchTodos s r).1.newTitle = s.newTitle ∧
    (fetchTodos s r).1.filter = s.filter ∧
    (fetchTodos s r).1.loading = false := by
  cases r with
  | success d => simp [FetchResult.isFailure] at h
  | httpError => simp [fetchTodos]
  | netError m => simp [fetchTodos]

/-- Witness for C9 at a concrete rejected Load. -/
theorem fetchTodos_failure_preserves_todos_witness :
    (fetchTodos ⟨[⟨1, "a", true⟩], "d", "active", false, ""⟩
        (.netError "down")).1.todos = [⟨1, "a", true⟩] ∧
    (fetchTodos ⟨[⟨1, "a", true⟩], "d", "active", false, ""⟩
        (.netError "down")).1.newTitle = "d" ∧
    (fetchTodos ⟨[⟨1, "a", true⟩], "d", "active", false, ""⟩
        (.netError "down")).1.filter = "active" ∧
    (fetchTodos ⟨[⟨1, "a", true⟩], "d", "active", false, ""⟩
        (.netError "down")).1.loading = false :=
  fetchTodos_failure_preserves_todos _ _ (by decide)

/-- C10: the optimistic removal of Delete(id) removes every item whose
identifier equals `id` (duplicate ids included: the count of any item
keeping the id drops to zero), keeps every item with a different id with
its multiplicity, and preserves relative order (the result is a sublist
of the input). -/
theorem deleteOptimistic_removes_exactly_id (id : Nat) (todos : List Todo) :
    (deleteOptimistic id todos).Sublist todos ∧
    (∀ t ∈ deleteOptimistic id todos, t.id ≠ id) ∧
    (∀ t ∈ todos, t.id ≠ id → t ∈ deleteOptimistic id todos) ∧
    (∀ t : Todo, t.id = id → (deleteOptimistic id todos).count t = 0) ∧
    (∀ t : Todo, t.id ≠ id →
      (deleteOptimistic id todos).count t = todos.count t) := by
  refine ⟨List.filter_sublist todos, ?_, ?_, ?_, ?_⟩
  · intro t ht
    have := (List.mem_filter.mp ht).2
    exact bne_iff_ne.mp this
  · intro t ht hne
    exact List.mem_filter.mpr ⟨ht, bne_iff_ne.mpr hne⟩
  · intro t hid
    rw [List.count_eq_zero]
    intro hmem
    exact absurd hid (bne_iff_ne.mp (List.mem_filter.mp hmem).2)
  · intro t hne
    exact List.count_filter (bne_iff_ne.mpr hne)

/-- C5: after a successful Rename(id, title) with a non-empty trimmed
title, the Collection is exactly the optimistic map: same length and
order, every item whose id differs from `id` unchanged at its position,
and every item with the id keeping its id and completed flag and carrying
the trimmed title. -/
theorem renameTodo_success_frame (id : Nat) (title : String) (s : AppState)
    (loadR : FetchResult (List Todo)) (h : jsTrim title ≠ "") :
    (renameTodo id title s (.success ()) loadR).1.todos
      = renameOptimistic id title s.todos ∧
    (renameOptimistic id title s.todos).length = s.todos.length ∧
    (∀ i : Nat, ∀ t : Todo, s.todos[i]? = some t → t.id ≠ id →
      (renameOptimistic id title s.todos)[i]? = some t) ∧
    (∀ i : Nat, ∀ t : Todo, s.todos[i]? = some t → t.id = id →
      (renameOptimistic id title s.todos)[i]?
        = some ⟨t.id, jsTrim title, t.completed⟩) := by
  refine ⟨by simp [renameTodo, h], by simp [renameOptimistic], ?_, ?_⟩
  · intro i t hit hne
    simp [renameOptimistic, List.getElem?_map, hit, if_neg hne]
  · intro i t hit hid
    simp [renameOptimistic, List.getElem?_map, hit, if_pos hid]

/-- Witness for C5 at a concrete two-item Collection and title `" X "`. -/
theorem renameTodo_success_frame_witness :
    (renameTodo 1 " X " ⟨[⟨1, "a", false⟩, ⟨2, "b", true⟩], "", "all", false, "e"⟩
        (.success ()) (.success [])).1.todos
      = renameOptimistic 1 " X " [⟨1, "a", false⟩, ⟨2, "b", true⟩] :=
  (renameTodo_success_frame 1 " X "
    ⟨[⟨1, "a", false⟩, ⟨2, "b", true⟩], "", "all", false, "e"⟩
    (.success []) (by decide)).1

/-- C1 counterexample: with the one-item collection {id 1, completed
true}, a failed Toggle(1, true) — the requested flag equal to the prior
one — ends with the flag false: the collection differs from the original,
so the final flag is not the pre-operation value for every requested
flag. -/
theorem toggleTodo_failed_revert_not_exact :
    (toggleTodo 1 true ⟨[⟨1, "a", true⟩], "", "all", false, ""⟩
        .httpError).1.todos = [⟨1, "a", false⟩] ∧
    [(⟨1, "a", false⟩ : Todo)] ≠ [(⟨1, "a", true⟩ : Todo)] := by decide

/-- The two maps of a failed toggle compose to setting `completed := !c`
on the items with the id. -/
theorem toggleRevert_toggleOptimistic (id : Nat) (c : Bool)
    (todos : List Todo) :
    toggleRevert id c (toggleOptimistic id c todos)
      = todos.map fun t => if t.id = id then ⟨t.id, t.title, !c⟩ else t := by
  simp only [toggleRevert, toggleOptimistic, List.map_map]
  refine List.map_congr_left fun t _ => ?_
  by_cases hid : t.id = id <;> simp [Function.comp, hid]

/-- C1 amended: on a failed Toggle(id, c), items with a different id are
untouched, and every item with the id ends with `completed = !c` — the
revert writes the negation of the requested flag, not a saved prior
value.  Whenever the requested flag differs from the item's prior one
(the only calls the checkbox UI issues) this negation is the prior value,
so the revert is exact in exactly that case. -/
theorem toggleTodo_failure_sets_negation (id : Nat) (c : Bool) (s : AppState)
    (r : FetchResult Unit) (h : r.isFailure = true) :
    (∀ i : Nat, ∀ t : Todo, s.todos[i]? = some t → t.id ≠ id →
      ((toggleTodo id c s r).1.todos)[i]? = some t) ∧
    (∀ i : Nat, ∀ t : Todo, s.todos[i]? = some t → t.id = id →
      ((toggleTodo id c s r).1.todos)[i]? = some ⟨t.id, t.title, !c⟩) ∧
    (∀ i : Nat, ∀ t : Todo, s.todos[i]? = some t → t.id = id →
      t.completed ≠ c → ((toggleTodo id c s r).1.todos)[i]? = some t) := by
  have htodos : (toggleTodo id c s r).1.todos
      = s.todos.map fun t => if t.id = id then ⟨t.id, t.title, !c⟩ else t := by
    cases r with
    | success u => simp [FetchResult.isFailure] at h
    | httpError => simp [toggleTodo, toggleRevert_toggleOptimistic]
    | netError m => simp [toggleTodo, toggleRevert_toggleOptimistic]
  refine ⟨?_, ?_, ?_⟩
  · intro i t hit hne
    simp [htodos, List.getElem?_map, hit, if_neg hne]
  · intro i t hit hid
    simp [htodos, List.getElem?_map, hit, if_pos hid]
  · intro i t hit hid hne
    have hc : (!c) = t.completed := by
      cases c <;> cases hcc : t.completed <;> simp_all
    simp [htodos, List.getElem?_map, hit, if_pos hid, hc]

/-- Witness for C1's amended theorem: item {id 1, completed false},
failed Toggle(1, true) — the requested flag differs from the prior one —
and the item comes back exactly as it was. -/
theorem toggleTodo_failure_sets_negation_witness :
    ((toggleTodo 1 true ⟨[⟨1, "a", false⟩], "", "all", false, ""⟩
        (.netError "down")).1.todos)[0]? = some ⟨1, "a", false⟩ :=
  (toggleTodo_failure_sets_negation 1 true
      ⟨[⟨1, "a", false⟩], "", "all", false, ""⟩ (.netError "down")
      (by decide)).2.2 0 ⟨1, "a", false⟩ (by decide) (by decide) (by decide)

/-- C2 (code bug): Collection of two completed items, ClearCompleted
issued, both DELETEs resolve with a non-success status.  `fetch` only
rejects on transport failure and this handler never checks `res.ok`, so
the catch never runs: the Collection stays empty instead of reverting to
the two-item snapshot, and the error stays cleared instead of carrying
the generic clear-failure message. -/
theorem clearCompleted_httpError_no_revert :
    clearCompleted ⟨[⟨1, "a", true⟩, ⟨2, "b", true⟩], "", "all", false, "old"⟩
        (fun _ => .httpError)
      = (⟨[], "", "all", false, ""⟩, [.deleteOne 1, .deleteOne 2]) := by decide

/-- The message `deleteTodo`'s catch receives: the throw's text on a
non-ok response, the rejection's message on a transport failure. -/
def deleteFailMsg : FetchResult Unit → String
  | .success _ => ""
  | .httpError => "Failed to delete todo"
  | .netError m => m

/-- The error message a completed Load leaves behind: empty on success,
the load-failure text on a non-ok response, the rejection's message on a
transport failure. -/
def loadFinalError : FetchResult (List Todo) → String
  | .success _ => ""
  | .httpError => "Failed to load todos"
  | .netError m => m

/-- C3 counterexample: Delete(5) fails with a non-ok response and the
triggered Load succeeds; after both complete the error message is empty —
`fetchTodos` clears the error at its start — not the delete-failure
message. -/
theorem deleteTodo_error_overwritten_by_load :
    (deleteTodo 5 ⟨[⟨5, "a", false⟩], "", "all", false, ""⟩ .httpError
        (.success [])).1.error = "" ∧
    ("" : String) ≠ "Failed to delete todo" := by decide

/-- C3 amended: a failed Delete(id) does trigger a full Load — the
handler issues exactly the DELETE then the GET — and the state the Load
starts from carries the delete-failure message; but the Load clears the
error first, so once it completes the displayed message is empty when the
Load succeeded and the Load's own failure message otherwise, never the
delete-failure message. -/
theorem deleteTodo_failure_triggers_load (id : Nat) (s : AppState)
    (r : FetchResult Unit) (loadR : FetchResult (List Todo))
    (h : r.isFailure = true) :
    (deleteTodo id s r loadR).2 = [.deleteOne id, .list] ∧
    (deleteTodo id s r loadR).1
      = (fetchTodos { s with error := deleteFailMsg r,
                             todos := deleteOptimistic id s.todos } loadR).1 ∧
    (deleteTodo id s r loadR).1.error = loadFinalError loadR := by
  cases r with
  | success u => simp [FetchResult.isFailure] at h
  | httpError =>
      cases loadR <;>
        simp [deleteTodo, fetchTodos, deleteFailMsg, loadFinalError]
  | netError m =>
      cases loadR <;>
        simp [deleteTodo, fetchTodos, deleteFailMsg, loadFinalError]

/-- Witness for C3's amended theorem at Delete(5) failing on a non-ok
response with a successful reload. -/
theorem deleteTodo_failure_triggers_load_witness :
    (deleteTodo 5 ⟨[⟨5, "a", false⟩], "", "all", false, ""⟩ .httpError
        (.success [])).2 = [.deleteOne 5, .list] ∧
    (deleteTodo 5 ⟨[⟨5, "a", false⟩], "", "all", false, ""⟩ .httpError
        (.success [])).1
      = (fetchTodos ⟨deleteOptimistic 5 [⟨5, "a", false⟩], "", "all", false,
          deleteFailMsg .httpError⟩ (.success [])).1 ∧
    (deleteTodo 5 ⟨[⟨5, "a", false⟩], "", "all", false, ""⟩ .httpError
        (.success [])).1.error = loadFinalError (.success []) :=
  deleteTodo_failure_triggers_load 5
    ⟨[⟨5, "a", false⟩], "", "all", false, ""⟩ .httpError (.success [])
    (by decide)

/-- C4 counterexample: Enter with the whitespace-only draft `"   "` still
calls the Rename callback, and with draft `" draft "` the raw, untrimmed
draft is what gets passed — the component neither guards on the trimmed
draft nor trims the value. -/
theorem handleKey_enter_raw_draft :
    (handleKey "Enter" "x" ⟨true, "   "⟩).2 = some "   " ∧
    jsTrim "   " = "" ∧
    (handleKey "Enter" "x" ⟨true, " draft "⟩).2 = some " draft " ∧
    jsTrim " draft " ≠ " draft " := by decide

/-- C4 amended: the confirm action always invokes the Rename callback,
passing the raw draft, and leaves edit mode; the trim guard lives in the
Rename operation the callback reaches, so end to end a PATCH carrying the
trimmed title goes out iff the draft is non-empty after trimming, and the
rename changes nothing otherwise. -/
theorem handleKey_enter_compose_rename (todoTitle : String) (st : RowState)
    (id : Nat) (s : AppState) (r : FetchResult Unit)
    (loadR : FetchResult (List Todo)) :
    (handleKey "Enter" todoTitle st).2 = some st.title ∧
    (handleKey "Enter" todoTitle st).1 = ⟨false, st.title⟩ ∧
    (jsTrim st.title = "" → renameTodo id st.title s r loadR = (s, [])) ∧
    (jsTrim st.title ≠ "" →
      Request.patchTitle id (jsTrim st.title)
        ∈ (renameTodo id st.title s r loadR).2) := by
  refine ⟨by simp [handleKey], by simp [handleKey], ?_, ?_⟩
  · intro h
    simp [renameTodo, h]
  · intro h
    cases r <;> simp [renameTodo, h]
